import Mathlib

/-!
Shallow embedding of the apothecary-ai analytical pipeline
(`src/agents/patient_profiling.py`, `src/agents/forecasting.py`,
`src/agents/optimization.py`, `src/schemas/external_signals.py`)
together with theorems settling the specification claims.

Python floats are modelled as exact rationals; Python `int()` is
truncation toward zero, `round(x, n)` is round-half-to-even at `n`
decimal digits, and `math.sqrt` is modelled by a high-precision
rational approximation (12 exact decimal digits).  Python division,
which raises `ZeroDivisionError` on a zero denominator, is modelled
by a checked division returning `Except Unit`.
-/

namespace Apothecary

/-- Python `int()` on a float: truncation toward zero. -/
def pytrunc (q : ℚ) : ℤ := if 0 ≤ q then ⌊q⌋ else ⌈q⌉

/-- Round a rational to the nearest integer, ties to even
(Python / IEEE-754 `round` tie-breaking). -/
def rnearestEven (q : ℚ) : ℤ :=
  if q - (⌊q⌋ : ℚ) < 1/2 then ⌊q⌋
  else if 1/2 < q - (⌊q⌋ : ℚ) then ⌊q⌋ + 1
  else if ⌊q⌋ % 2 = 0 then ⌊q⌋ else ⌊q⌋ + 1

/-- Python `round(q, n)`: round to `n` decimal digits, ties to even. -/
def pyround (q : ℚ) (n : ℕ) : ℚ := (rnearestEven (q * 10 ^ n) : ℚ) / 10 ^ n

/-- Square root on rationals, modelling the float `math.sqrt`:
exact to 12 decimal digits, and 0 on negative inputs (whose only use
in this development is under guards that keep inputs nonnegative). -/
def qsqrt (q : ℚ) : ℚ := (Nat.sqrt (Int.toNat ⌊q * 10 ^ 24⌋) : ℚ) / 10 ^ 12

/-- Checked division: Python `/`, which raises `ZeroDivisionError`
(modelled as `Except.error ()`) when the denominator is zero. -/
def qdiv (a b : ℚ) : Except Unit ℚ := if b = 0 then .error () else .ok (a / b)

/- ----------------------------------------------------------------
Patient profiling (`src/agents/patient_profiling.py`)
---------------------------------------------------------------- -/

/-- `RefillPattern` (statistics of one patient/medication history).
Dates are day numbers; float fields are rationals. -/
structure RefillPattern where
  average_interval_days : ℚ
  std_deviation_days : ℚ
  total_refills : ℕ
  consistency_score : ℚ
deriving DecidableEq

/-- `BehaviorType` classification enum. -/
inductive BehaviorType where
  | highly_regular
  | regular
  | irregular
  | new_patient
  | insufficient_data
deriving DecidableEq

/-- `RefillPrediction` (dates are day numbers). -/
structure RefillPrediction where
  expected_date : ℤ
  confidence : ℚ
  earliest_date : ℤ
  latest_date : ℤ
  days_until_expected : ℤ
deriving DecidableEq

/-- Consecutive differences of a list of fill dates:
`history["fill_date"].diff().dropna()` on the date-sorted history. -/
def fillIntervals : List ℤ → List ℤ
  | [] => []
  | [_] => []
  | a :: b :: rest => (b - a) :: fillIntervals (b :: rest)

/-- Sum of a list of rationals. -/
def qsum (l : List ℚ) : ℚ := l.foldr (· + ·) 0

/-- Sample mean of a list of integers. -/
def sampleMean (l : List ℤ) : ℚ := qsum (l.map (fun x : ℤ => (x : ℚ))) / l.length

/-- Sample standard deviation (pandas `.std()`, `ddof = 1`),
via the rational square-root model. -/
def sampleStd (l : List ℤ) : ℚ :=
  let m := sampleMean l
  qsqrt (qsum (l.map (fun x : ℤ => ((x : ℚ) - m) ^ 2)) / ((l.length : ℚ) - 1))

/-- `PatientProfilingAgent._calculate_pattern`: statistics of a
date-sorted fill history (the agent sorts by `fill_date` first). -/
def calculate_pattern (history : List ℤ) : RefillPattern :=
  let total_refills := history.length
  if total_refills < 2 then
    { average_interval_days := 30, std_deviation_days := 15,
      total_refills := total_refills, consistency_score := 0 }
  else
    let intervals := fillIntervals history
    let avg_interval := sampleMean intervals
    let std0 := if 1 < intervals.length then sampleStd intervals else 15
    let std_interval := if std0 = 0 then 1 else std0
    let cv := if 0 < avg_interval then std_interval / avg_interval else 1
    let consistency_score := max 0 (min 1 (1 - cv))
    { average_interval_days := pyround avg_interval 1,
      std_deviation_days := pyround std_interval 1,
      total_refills := total_refills,
      consistency_score := pyround consistency_score 2 }

/-- `PatientProfilingAgent._classify_behavior` with the
highly-regular / regular thresholds (defaults 3.0 and 7.0). -/
def classify_behavior (hrThreshold regThreshold : ℚ)
    (pattern : RefillPattern) (num_refills : ℕ) : BehaviorType :=
  if num_refills < 3 then
    if num_refills ≤ 1 then .new_patient else .insufficient_data
  else if pattern.std_deviation_days ≤ hrThreshold then .highly_regular
  else if pattern.std_deviation_days ≤ regThreshold then .regular
  else .irregular

/-- `PatientProfilingAgent._predict_next_refill`. -/
def predict_next_refill (last_fill_date : ℤ) (pattern : RefillPattern)
    (analysis_date : ℤ) : RefillPrediction :=
  let avg_interval := pattern.average_interval_days
  let std_interval := pattern.std_deviation_days
  let expected_date := last_fill_date + pytrunc avg_interval
  let margin := pytrunc (2 * std_interval)
  let earliest0 := last_fill_date + pytrunc (avg_interval - (margin : ℚ))
  let latest_date := last_fill_date + pytrunc (avg_interval + (margin : ℚ))
  let earliest_date := if earliest0 < analysis_date then analysis_date else earliest0
  let days_until := expected_date - analysis_date
  let confidence0 := pattern.consistency_score
  let confidence :=
    if 10 ≤ pattern.total_refills then min (19/20) (confidence0 + 1/10)
    else if 6 ≤ pattern.total_refills then min (9/10) (confidence0 + 1/20)
    else confidence0
  { expected_date := expected_date,
    confidence := pyround confidence 2,
    earliest_date := earliest_date,
    latest_date := latest_date,
    days_until_expected := days_until }

/- ----------------------------------------------------------------
Inventory optimization (`src/agents/optimization.py`,
`src/schemas/optimization.py`)
---------------------------------------------------------------- -/

/-- `MedicationInventory` (the fields `_optimize_medication` reads). -/
structure MedicationInventory where
  current_quantity : ℤ
  units_expiring_soon : ℤ
  unit_cost : ℚ
  case_size : ℤ
  lead_time_days : ℤ
deriving DecidableEq

/-- `OptimizationConfig` (the fields `_optimize_medication` reads). -/
structure OptimizationConfig where
  safety_stock_days : ℤ
  carrying_cost_rate : ℚ
  order_fixed_cost : ℚ
  critical_threshold_days : ℤ
  high_priority_threshold_days : ℤ
  use_eoq : Bool
  round_to_case_size : Bool
  min_order_quantity : ℤ
deriving DecidableEq

/-- The pydantic defaults of `OptimizationConfig`. -/
def defaultConfig : OptimizationConfig :=
  { safety_stock_days := 7, carrying_cost_rate := 1/5,
    order_fixed_cost := 50, critical_threshold_days := 3,
    high_priority_threshold_days := 7, use_eoq := true,
    round_to_case_size := true, min_order_quantity := 1 }

/-- `OrderPriority` enum. -/
inductive OrderPriority where
  | critical
  | high
  | medium
  | low
deriving DecidableEq

/-- `OrderReason` enum (the members the optimizer emits). -/
inductive OrderReason where
  | stockout_risk
  | reorder_point
  | expiring_soon
  | routine
deriving DecidableEq

/-- `OrderRecommendation` (numeric and priority fields). -/
structure OrderRecommendation where
  current_quantity : ℤ
  forecasted_demand_30d : ℚ
  recommended_order_quantity : ℤ
  recommended_cases : ℤ
  reorder_point : ℤ
  safety_stock : ℤ
  order_cost : ℚ
  days_of_supply : ℚ
  priority : OrderPriority
  reasons : List OrderReason
  urgency_score : ℚ
  stockout_risk : ℚ
  overstock_risk : ℚ
deriving DecidableEq

/-- Days of supply with the zero-demand sentinel:
`current_quantity / daily_demand if daily_demand > 0 else 999`. -/
def daysOfSupplyOf (current_quantity : ℤ) (daily_demand : ℚ) : ℚ :=
  if 0 < daily_demand then (current_quantity : ℚ) / daily_demand else 999

/-- The tail of `_optimize_medication`'s order branch, from the
already-floored order quantity on (source lines 282-344): case
rounding, costs, priority, reasons, and the three risk scores.
Unguarded Python divisions appear as checked `qdiv` in source order
apart from risk-score divisions being hoisted above the pure
priority/cost bookkeeping, which cannot change the result. -/
def buildRecommendationCore (cfg : OptimizationConfig) (inv : MedicationInventory)
    (forecasted_demand daily_demand : ℚ) (safety_stock reorder_point : ℤ)
    (days_of_supply : ℚ) (order_quantity1 : ℤ) : Except Unit OrderRecommendation :=
  match qdiv (order_quantity1 : ℚ) (inv.case_size : ℚ) with
  | .error e => .error e
  | .ok case_ratio =>
    let recommended_cases := ⌈case_ratio⌉
    let order_quantity :=
      if cfg.round_to_case_size ∧ 1 < inv.case_size then
        recommended_cases * inv.case_size
      else order_quantity1
    match qdiv days_of_supply (cfg.high_priority_threshold_days : ℚ) with
    | .error e => .error e
    | .ok u =>
      match qdiv (inv.current_quantity : ℚ) (reorder_point : ℚ) with
      | .error e => .error e
      | .ok s =>
        let target_stock := forecasted_demand + (safety_stock : ℚ)
        match qdiv ((inv.current_quantity : ℚ) + (order_quantity : ℚ) - target_stock)
            target_stock with
        | .error e => .error e
        | .ok o =>
          let pr : OrderPriority × List OrderReason :=
            if days_of_supply < (cfg.critical_threshold_days : ℚ) then
              (.critical, [.stockout_risk])
            else if days_of_supply < (cfg.high_priority_threshold_days : ℚ) then
              (.high, [.reorder_point])
            else if inv.current_quantity ≤ reorder_point then
              (.medium, [.routine])
            else (.low, [.routine])
          .ok {
            current_quantity := inv.current_quantity,
            forecasted_demand_30d := forecasted_demand,
            recommended_order_quantity := order_quantity,
            recommended_cases := recommended_cases,
            reorder_point := reorder_point,
            safety_stock := safety_stock,
            order_cost := (order_quantity : ℚ) * inv.unit_cost,
            days_of_supply :=
              if 0 < daily_demand then
                ((inv.current_quantity : ℚ) + (order_quantity : ℚ)) / daily_demand
              else 999,
            priority := pr.1,
            reasons := pr.2 ++ (if 0 < inv.units_expiring_soon then [.expiring_soon] else []),
            urgency_score := max 0 (min 1 (1 - u)),
            stockout_risk := max 0 (min 1 (1 - s)),
            overstock_risk := max 0 (min 1 o) }

/-- The body of `_optimize_medication` once an order was triggered
(source lines 256-344): EOQ / fallback quantity, then the
minimum-order floor, then the core above. -/
def buildRecommendation (cfg : OptimizationConfig) (inv : MedicationInventory)
    (forecasted_demand daily_demand : ℚ) (safety_stock reorder_point : ℤ)
    (days_of_supply : ℚ) : Except Unit OrderRecommendation :=
  let order_quantity0 : ℤ :=
    if cfg.use_eoq then
      let annual_demand := daily_demand * 365
      let holding_cost := inv.unit_cost * cfg.carrying_cost_rate
      if 0 < holding_cost then
        pytrunc (qsqrt (2 * annual_demand * cfg.order_fixed_cost / holding_cost))
      else
        pytrunc forecasted_demand
    else
      pytrunc (forecasted_demand + (safety_stock : ℚ) - (inv.current_quantity : ℚ))
  buildRecommendationCore cfg inv forecasted_demand daily_demand safety_stock
    reorder_point days_of_supply (max order_quantity0 cfg.min_order_quantity)

/-- `OptimizationAgent._optimize_medication`: emits `some` recommendation
when the order trigger fires, `none` when stock is sufficient, and
`Except.error ()` when a Python division raises `ZeroDivisionError`. -/
def optimize_medication (cfg : OptimizationConfig) (inv : MedicationInventory)
    (forecasted_demand : ℚ) (forecast_horizon_days : ℤ) :
    Except Unit (Option OrderRecommendation) :=
  match qdiv forecasted_demand (forecast_horizon_days : ℚ) with
  | .error e => .error e
  | .ok daily_demand =>
    let safety_stock := pytrunc (daily_demand * (cfg.safety_stock_days : ℚ))
    let reorder_point :=
      pytrunc (daily_demand * (inv.lead_time_days : ℚ) + (safety_stock : ℚ))
    let days_of_supply := daysOfSupplyOf inv.current_quantity daily_demand
    if inv.current_quantity ≤ reorder_point ∨
        days_of_supply < (cfg.high_priority_threshold_days : ℚ) then
      (buildRecommendation cfg inv forecasted_demand daily_demand
        safety_stock reorder_point days_of_supply).map some
    else .ok none

/-- Example inventory row (40 units on hand, a donated zero-cost
item in cases of 12, 7-day lead time) used in witnesses. -/
def exampleInventory : MedicationInventory :=
  { current_quantity := 40, units_expiring_soon := 0, unit_cost := 0,
    case_size := 12, lead_time_days := 7 }

/-- The recommendation `_optimize_medication` emits for
`exampleInventory` with 500 units of demand over a 10-day horizon
under the default configuration. -/
def exampleRec : OrderRecommendation :=
  { current_quantity := 40, forecasted_demand_30d := 500,
    recommended_order_quantity := 504, recommended_cases := 42,
    reorder_point := 700, safety_stock := 350, order_cost := 0,
    days_of_supply := 272/25, priority := .critical,
    reasons := [.stockout_risk], urgency_score := 31/35,
    stockout_risk := 33/35, overstock_risk := 0 }

/- ----------------------------------------------------------------
External signals (`src/schemas/external_signals.py`) and the
demand forecaster (`src/agents/forecasting.py`)
---------------------------------------------------------------- -/

/-- `TrendDirection` enum. -/
inductive TrendDirection where
  | increasing
  | stable
  | decreasing
  | rapid_increase
  | rapid_decrease
deriving DecidableEq

/-- `FluActivity` (the fields `get_demand_multiplier` reads;
pydantic constrains `level` to 1..10). -/
structure FluActivity where
  level : ℤ
  trend : TrendDirection
deriving DecidableEq

/-- The `trend_adjustment` dictionary in `get_demand_multiplier`. -/
def trend_adjustment : TrendDirection → ℚ
  | .rapid_increase => 12/10
  | .increasing => 11/10
  | .stable => 1
  | .decreasing => 95/100
  | .rapid_decrease => 9/10

/-- `FluActivity.get_demand_multiplier`. -/
def get_demand_multiplier (f : FluActivity) : ℚ :=
  let base : ℚ :=
    if f.level ≤ 3 then 1
    else if f.level ≤ 6 then 1 + (f.level - 3 : ℤ) * (15/100)
    else 145/100 + (f.level - 6 : ℤ) * (20/100)
  pyround (base * trend_adjustment f.trend) 2

/-- For comparison with the spec: the claim's piecewise base
(level ≤ 3 → 1.0; levels 4-6 → 1.0 + (level-3)·0.15; levels 7-10 →
1.45 + (level-6)·0.20), stated from the spec's words. -/
def specFluBase (level : ℤ) : ℚ :=
  if level ≤ 3 then 1
  else if level ≤ 6 then 1 + (level - 3 : ℤ) * (15/100)
  else 145/100 + (level - 6 : ℤ) * (20/100)

/-- For comparison with the spec: the claim's trend factor
(rapid_increase ×1.20, increasing ×1.10, stable ×1.00,
decreasing ×0.95, rapid_decrease ×0.90), stated from the spec's
words. -/
def specTrendFactor : TrendDirection → ℚ
  | .rapid_increase => 12/10
  | .increasing => 11/10
  | .stable => 1
  | .decreasing => 95/100
  | .rapid_decrease => 9/10

/-- `WeatherData` (the fields `get_cold_flu_multiplier` reads). -/
structure WeatherData where
  temperature_avg_f : ℚ
  humidity_percent : ℚ
  is_cold_snap : Bool
deriving DecidableEq

/-- `WeatherData.get_cold_flu_multiplier`. -/
def get_cold_flu_multiplier (w : WeatherData) : ℚ :=
  let m1 : ℚ := 1
  let m2 := if w.temperature_avg_f < 32 then m1 + 3/10
    else if w.temperature_avg_f < 45 then m1 + 15/100 else m1
  let m3 := if w.is_cold_snap then m2 + 2/10 else m2
  let m4 := if 80 < w.humidity_percent then m3 + 5/100 else m3
  pyround m4 2

/-- `LocalEvent` (the fields `_calculate_external_multipliers` reads). -/
structure LocalEvent where
  expected_impact : String
  affected_categories : List String
deriving DecidableEq

/-- `ExternalSignals` (the fields the forecaster reads). -/
structure ExternalSignals where
  flu_activity : Option FluActivity
  weather : Option WeatherData
  events : List LocalEvent
deriving DecidableEq

/-- The Python `dict[str, float]` of multipliers, as an association list. -/
def MultDict : Type := List (String × ℚ)

/-- Dictionary write `d[k] = v`. -/
def dset (d : MultDict) (k : String) (v : ℚ) : MultDict :=
  match d with
  | [] => [(k, v)]
  | (k', v') :: rest =>
    if k' = k then (k, v) :: rest else (k', v') :: dset rest k v

/-- Dictionary read `d.get(k, dflt)`. -/
def dget (d : MultDict) (k : String) (dflt : ℚ) : ℚ :=
  match d with
  | [] => dflt
  | (k', v') :: rest => if k' = k then v' else dget rest k dflt

/-- Dictionary membership `k in d`. -/
def dmem (d : MultDict) (k : String) : Bool :=
  match d with
  | [] => false
  | (k', _) :: rest => k' = k || dmem rest k

/-- The inner loop of the event step: each affected category of an
`early_refills` event is boosted by 1.2. -/
def applyEventCategories (cats : List String) (d : MultDict) : MultDict :=
  match cats with
  | [] => d
  | c :: rest => applyEventCategories rest (dset d c (dget d c 1 * (12/10)))

/-- The event step of `_calculate_external_multipliers`. -/
def applyEvents (events : List LocalEvent) (d : MultDict) : MultDict :=
  match events with
  | [] => d
  | e :: rest =>
    applyEvents rest
      (if e.expected_impact = "early_refills" then
        applyEventCategories e.affected_categories d
      else d)

/-- `ForecastingAgent._calculate_external_multipliers`. -/
def calculate_external_multipliers (signals : Option ExternalSignals) : MultDict :=
  match signals with
  | none => []
  | some s =>
    let d0 : MultDict := []
    let d1 := match s.flu_activity with
      | none => d0
      | some flu =>
        let flu_mult := get_demand_multiplier flu
        dset (dset d0 "antiviral" flu_mult) "cold_flu_otc" (flu_mult * (8/10))
    let d2 := match s.weather with
      | none => d1
      | some w =>
        let weather_mult := get_cold_flu_multiplier w
        if dmem d1 "cold_flu_otc" then
          dset d1 "cold_flu_otc" (max (dget d1 "cold_flu_otc" 1) weather_mult)
        else
          dset d1 "cold_flu_otc" weather_mult
    applyEvents s.events d2

/-- `pattern in string` on character lists: prefix test. -/
def charsStart : List Char → List Char → Bool
  | [], _ => true
  | _ :: _, [] => false
  | a :: as, b :: bs => a = b && charsStart as bs

/-- `pattern in string` on character lists: substring test. -/
def charsHasSub : List Char → List Char → Bool
  | pat, [] => pat.isEmpty
  | pat, c :: rest => charsStart pat (c :: rest) || charsHasSub pat rest

/-- Python `pat in s` for strings. -/
def strHasSub (s pat : String) : Bool := charsHasSub pat.data s.data

/-- `ForecastingAgent._infer_category`: keyword heuristic on the
lowercased medication name. -/
def infer_category (medication : String) : String :=
  let m := medication.toLower
  if strHasSub m "insulin" || strHasSub m "metformin" || strHasSub m "glipizide" then
    "diabetes"
  else if strHasSub m "lisinopril" || strHasSub m "amlodipine" ||
      strHasSub m "atorvastatin" then
    "cardiovascular"
  else if strHasSub m "tamiflu" || strHasSub m "oseltamivir" then
    "antiviral"
  else if strHasSub m "amoxicillin" || strHasSub m "azithromycin" then
    "antibiotic"
  else if strHasSub m "omeprazole" || strHasSub m "pantoprazole" then
    "gastrointestinal"
  else if strHasSub m "levothyroxine" then
    "thyroid"
  else "other"

/-- `MedicationForecast` (one record per medication and day). -/
structure MedicationForecast where
  medication : String
  category : String
  forecast_date : ℤ
  predicted_demand : ℚ
  lower_bound : ℚ
  upper_bound : ℚ
  base_demand : ℚ
  patient_based_demand : ℚ
  external_multiplier : ℚ
  confidence : ℚ
  spike_alert : Bool

/-- The consecutive days `start_date .. end_date` of the forecast window. -/
def dayRange (start_date : ℤ) (horizon : ℕ) : List ℤ :=
  (List.range horizon).map (fun i : ℕ => start_date + (i : ℤ))

/-- `ForecastingAgent._forecast_medication`: one forecast per day.
`patient_demand` models the per-date demand dict (`.get(date, 0.0)`
made total); `use_prophet` with historical data falls back to the
same patient-based demand in the source, so `base_demand` is always
the patient-based demand. -/
def forecast_medication (medication : String) (patient_demand : ℤ → ℚ)
    (multipliers : MultDict) (start_date : ℤ) (horizon : ℕ)
    (spike_threshold : ℚ) : List MedicationForecast :=
  let category := infer_category medication
  let external_multiplier := dget multipliers category 1
  (dayRange start_date horizon).map (fun d =>
    let patient_based := patient_demand d
    let base_demand := patient_based
    let predicted_demand := base_demand * external_multiplier
    let cs : ℚ × ℚ :=
      if 0 < patient_based then (85/100, predicted_demand * (15/100))
      else (60/100, predicted_demand * (30/100))
    { medication := medication, category := category, forecast_date := d,
      predicted_demand := predicted_demand,
      lower_bound := max 0 (predicted_demand - (196/100) * cs.2),
      upper_bound := predicted_demand + (196/100) * cs.2,
      base_demand := base_demand,
      patient_based_demand := patient_based,
      external_multiplier := external_multiplier,
      confidence := cs.1,
      spike_alert := base_demand * spike_threshold < predicted_demand })

/-- The per-medication loop of `ForecastingAgent.execute` (step 3):
all daily forecasts of a run, in run order. -/
def runForecasts (meds : List (String × (ℤ → ℚ))) (multipliers : MultDict)
    (start_date : ℤ) (horizon : ℕ) (spike_threshold : ℚ) :
    List MedicationForecast :=
  (meds.map (fun p =>
    forecast_medication p.1 p.2 multipliers start_date horizon spike_threshold)).flatten

/-- Largest element of a list (the "maximum multiplier observed"),
0 for the empty list. -/
def listMax : List ℚ → ℚ
  | [] => 0
  | [x] => x
  | x :: y :: rest => max x (listMax (y :: rest))

/-- Sum of `predicted_demand` over a forecast list. -/
def totalPredicted (l : List MedicationForecast) : ℚ :=
  qsum (l.map (fun f => f.predicted_demand))

/-- Sum of `patient_based_demand` over a forecast list. -/
def totalPatientBased (l : List MedicationForecast) : ℚ :=
  qsum (l.map (fun f => f.patient_based_demand))

/-- The maximum `external_multiplier` observed in a run. -/
def maxMultObserved (l : List MedicationForecast) : ℚ :=
  listMax (l.map (fun f => f.external_multiplier))

/- ----------------------------------------------------------------
Helper lemmas about the numeric model
---------------------------------------------------------------- -/

theorem pytrunc_coe (z : ℤ) : pytrunc (z : ℚ) = z := by
  unfold pytrunc
  rcases le_or_lt 0 z with hz | hz
  · rw [if_pos (by exact_mod_cast hz), Int.floor_intCast]
  · rw [if_neg (not_le.mpr (show (z : ℚ) < 0 by exact_mod_cast hz)), Int.ceil_intCast]

theorem pytrunc_nonneg {q : ℚ} (h : 0 ≤ q) : 0 ≤ pytrunc q := by
  unfold pytrunc
  rw [if_pos h]
  exact Int.floor_nonneg.mpr h

theorem pytrunc_mono {p q : ℚ} (h : p ≤ q) : pytrunc p ≤ pytrunc q := by
  unfold pytrunc
  rcases le_or_lt 0 p with hp | hp
  · rw [if_pos hp, if_pos (le_trans hp h)]
    exact Int.floor_le_floor h
  · rw [if_neg (not_le.mpr hp)]
    rcases le_or_lt 0 q with hq | hq
    · rw [if_pos hq]
      exact le_trans (Int.ceil_le.mpr (by exact_mod_cast hp.le)) (Int.floor_nonneg.mpr hq)
    · rw [if_neg (not_le.mpr hq)]
      exact Int.ceil_le_ceil h

theorem pytrunc_eval (q : ℚ) (z : ℤ) (hz : 0 ≤ z) (h1 : (z : ℚ) ≤ q)
    (h2 : q < z + 1) : pytrunc q = z := by
  have hq : 0 ≤ q := le_trans (by exact_mod_cast hz) h1
  unfold pytrunc
  rw [if_pos hq]
  exact Int.floor_eq_iff.mpr ⟨h1, h2⟩

theorem le_pytrunc_iff {z : ℤ} {q : ℚ} (h : 0 ≤ q) : z ≤ pytrunc q ↔ (z : ℚ) ≤ q := by
  unfold pytrunc
  rw [if_pos h]
  exact Int.le_floor

theorem rne_eval_lo (q : ℚ) (f : ℤ) (h1 : (f : ℚ) ≤ q) (h2 : q - f < 1/2) :
    rnearestEven q = f := by
  have hf : ⌊q⌋ = f := Int.floor_eq_iff.mpr ⟨h1, by linarith⟩
  unfold rnearestEven
  rw [hf, if_pos h2]

theorem rne_eval_hi (q : ℚ) (f : ℤ) (h1 : 1/2 < q - f) (h2 : q < f + 1) :
    rnearestEven q = f + 1 := by
  have hf : ⌊q⌋ = f := Int.floor_eq_iff.mpr ⟨by linarith, by exact_mod_cast h2⟩
  unfold rnearestEven
  rw [hf, if_neg (by linarith), if_pos h1]

theorem pyround_eval_lo (q : ℚ) (n : ℕ) (f : ℤ) (h1 : (f : ℚ) ≤ q * 10 ^ n)
    (h2 : q * 10 ^ n - f < 1/2) : pyround q n = (f : ℚ) / 10 ^ n := by
  unfold pyround
  rw [rne_eval_lo (q * 10 ^ n) f h1 h2]

theorem pyround_eval_hi (q : ℚ) (n : ℕ) (f : ℤ) (h1 : 1/2 < q * 10 ^ n - f)
    (h2 : q * 10 ^ n < f + 1) : pyround q n = ((f : ℚ) + 1) / 10 ^ n := by
  unfold pyround
  rw [rne_eval_hi (q * 10 ^ n) f h1 h2]
  push_cast
  ring

theorem pyround_int_div (m : ℤ) (n : ℕ) : pyround ((m : ℚ) / 10 ^ n) n = (m : ℚ) / 10 ^ n := by
  have h10 : ((10 : ℚ) ^ n) ≠ 0 := by positivity
  have harg : (m : ℚ) / 10 ^ n * 10 ^ n = (m : ℚ) := by field_simp
  unfold pyround
  rw [harg, rne_eval_lo (m : ℚ) m le_rfl (by norm_num)]

theorem qsqrt_eval (q : ℚ) (N r : ℕ) (h1 : (N : ℚ) ≤ q * 10 ^ 24)
    (h2 : q * 10 ^ 24 < N + 1) (h3 : r * r ≤ N) (h4 : N < (r + 1) * (r + 1)) :
    qsqrt q = (r : ℚ) / 10 ^ 12 := by
  have hfl : ⌊q * 10 ^ 24⌋ = (N : ℤ) := by
    apply Int.floor_eq_iff.mpr
    constructor
    · exact_mod_cast h1
    · exact_mod_cast h2
  unfold qsqrt
  rw [hfl, Int.toNat_natCast, (Nat.eq_sqrt.mpr ⟨h3, h4⟩).symm]

theorem qdiv_ok (a b : ℚ) (h : b ≠ 0) : qdiv a b = .ok (a / b) := by
  unfold qdiv
  rw [if_neg h]

theorem qdiv_zero (a : ℚ) : qdiv a 0 = .error () := by
  unfold qdiv
  rw [if_pos rfl]

/- ----------------------------------------------------------------
Concrete evaluations of the profiling pipeline
---------------------------------------------------------------- -/

theorem fillIntervals_c7 : fillIntervals [0, 30, 61, 89] = [30, 31, 28] := rfl

theorem sampleMean_c7 : sampleMean [30, 31, 28] = 89/3 := by
  unfold sampleMean qsum
  norm_num [List.map, List.foldr, List.length]

theorem sampleStd_c7 : sampleStd [30, 31, 28] = 1527525231651 / 10 ^ 12 := by
  simp only [sampleStd, sampleMean_c7]
  rw [show qsum (([30, 31, 28] : List ℤ).map fun x : ℤ => ((x : ℚ) - 89/3) ^ 2) /
      ((([30, 31, 28] : List ℤ).length : ℚ) - 1) = 7/3 by
    unfold qsum
    norm_num [List.map, List.foldr, List.length]]
  exact qsqrt_eval (7/3) 2333333333333333333333333 1527525231651
    (by norm_num) (by norm_num) (by norm_num) (by norm_num)

theorem pattern_c7 : calculate_pattern [0, 30, 61, 89] =
    { average_interval_days := 297/10, std_deviation_days := 3/2,
      total_refills := 4, consistency_score := 19/20 } := by
  simp only [calculate_pattern, fillIntervals_c7, sampleMean_c7, sampleStd_c7,
    List.length_cons, List.length_nil]
  norm_num [inf_eq_min, sup_eq_max, min_def, max_def]
  rw [pyround_eval_hi (89/3) 1 296 (by norm_num) (by norm_num)]
  rw [pyround_eval_lo (1527525231651 / 1000000000000 : ℚ) 1 15 (by norm_num) (by norm_num)]
  rw [pyround_eval_hi (84417424305047/89000000000000 : ℚ) 2 94 (by norm_num) (by norm_num)]
  norm_num

theorem predict_c7 (analysis : ℤ) :
    predict_next_refill 89
      { average_interval_days := 297/10, std_deviation_days := 3/2,
        total_refills := 4, consistency_score := 19/20 } analysis =
    { expected_date := 118, confidence := 19/20,
      earliest_date := if 115 < analysis then analysis else 115,
      latest_date := 121, days_until_expected := 118 - analysis } := by
  simp only [predict_next_refill]
  rw [show pytrunc (2 * (3/2) : ℚ) = 3 from
    pytrunc_eval _ 3 (by norm_num) (by norm_num) (by norm_num)]
  rw [show pytrunc (297/10 : ℚ) = 29 from
    pytrunc_eval _ 29 (by norm_num) (by norm_num) (by norm_num)]
  rw [show pytrunc (297/10 - ((3 : ℤ) : ℚ) : ℚ) = 26 from
    pytrunc_eval _ 26 (by norm_num) (by norm_num) (by norm_num)]
  rw [show pytrunc (297/10 + ((3 : ℤ) : ℚ) : ℚ) = 32 from
    pytrunc_eval _ 32 (by norm_num) (by norm_num) (by norm_num)]
  rw [if_neg (by norm_num), if_neg (by norm_num)]
  rw [pyround_eval_lo (19/20 : ℚ) 2 95 (by norm_num) (by norm_num)]
  norm_num

theorem pyround2_cent (k : ℤ) : pyround ((k : ℚ) / 100) 2 = (k : ℚ) / 100 := by
  have h := pyround_int_div k 2
  norm_num at h
  exact h

theorem min_cent (a b : ℤ) : min ((a : ℚ) / 100) ((b : ℚ) / 100) = ((min a b : ℤ) : ℚ) / 100 := by
  rcases le_total a b with h | h
  · rw [min_eq_left h,
      min_eq_left ((div_le_div_right (by norm_num : (0:ℚ) < 100)).mpr (by exact_mod_cast h))]
  · rw [min_eq_right h,
      min_eq_right ((div_le_div_right (by norm_num : (0:ℚ) < 100)).mpr (by exact_mod_cast h))]

theorem fillIntervals_c3 : fillIntervals [0, 28, 60, 88, 120, 150] = [28, 32, 28, 32, 30] := rfl

theorem sampleMean_c3 : sampleMean [28, 32, 28, 32, 30] = 30 := by
  unfold sampleMean qsum
  norm_num [List.map, List.foldr, List.length]

theorem sampleStd_c3 : sampleStd [28, 32, 28, 32, 30] = 2 := by
  simp only [sampleStd, sampleMean_c3]
  rw [show qsum (([28, 32, 28, 32, 30] : List ℤ).map fun x : ℤ => ((x : ℚ) - 30) ^ 2) /
      ((([28, 32, 28, 32, 30] : List ℤ).length : ℚ) - 1) = 4 by
    unfold qsum
    norm_num [List.map, List.foldr, List.length]]
  rw [qsqrt_eval 4 4000000000000000000000000 2000000000000
    (by norm_num) (by norm_num) (by norm_num) (by norm_num)]
  norm_num

theorem pattern_c3 : calculate_pattern [0, 28, 60, 88, 120, 150] =
    { average_interval_days := 30, std_deviation_days := 2,
      total_refills := 6, consistency_score := 93/100 } := by
  simp only [calculate_pattern, fillIntervals_c3, sampleMean_c3, sampleStd_c3,
    List.length_cons, List.length_nil]
  norm_num [inf_eq_min, sup_eq_max, min_def, max_def]
  rw [pyround_eval_lo (30 : ℚ) 1 300 (by norm_num) (by norm_num)]
  rw [pyround_eval_lo (2 : ℚ) 1 20 (by norm_num) (by norm_num)]
  rw [pyround_eval_lo (14/15 : ℚ) 2 93 (by norm_num) (by norm_num)]
  norm_num

theorem fillIntervals_c4 : fillIntervals [0, 30, 60, 90] = [30, 30, 30] := rfl

theorem sampleMean_c4 : sampleMean [30, 30, 30] = 30 := by
  unfold sampleMean qsum
  norm_num [List.map, List.foldr, List.length]

theorem sampleStd_c4 : sampleStd [30, 30, 30] = 0 := by
  simp only [sampleStd, sampleMean_c4]
  rw [show qsum (([30, 30, 30] : List ℤ).map fun x : ℤ => ((x : ℚ) - 30) ^ 2) /
      ((([30, 30, 30] : List ℤ).length : ℚ) - 1) = 0 by
    unfold qsum
    norm_num [List.map, List.foldr, List.length]]
  rw [qsqrt_eval 0 0 0 (by norm_num) (by norm_num) (by norm_num) (by norm_num)]
  norm_num

theorem pattern_c4 : calculate_pattern [0, 30, 60, 90] =
    { average_interval_days := 30, std_deviation_days := 1,
      total_refills := 4, consistency_score := 97/100 } := by
  simp only [calculate_pattern, fillIntervals_c4, sampleMean_c4, sampleStd_c4,
    List.length_cons, List.length_nil]
  norm_num [inf_eq_min, sup_eq_max, min_def, max_def]
  rw [pyround_eval_lo (30 : ℚ) 1 300 (by norm_num) (by norm_num)]
  rw [pyround_eval_lo (1 : ℚ) 1 10 (by norm_num) (by norm_num)]
  rw [pyround_eval_hi (29/30 : ℚ) 2 96 (by norm_num) (by norm_num)]
  norm_num

/- ----------------------------------------------------------------
Claim C3
---------------------------------------------------------------- -/

/-- C3: counterexample. A six-fill history (fills on days 0, 28, 60,
88, 120, 150, consistency score 0.93) yields prediction confidence
0.90, whereas the claimed formula (+0.10 boost at 6 or more fills,
capped at 0.95) yields 0.95. -/
theorem c3_counterexample :
    (calculate_pattern [0, 28, 60, 88, 120, 150]).total_refills = 6 ∧
    (calculate_pattern [0, 28, 60, 88, 120, 150]).consistency_score = 93/100 ∧
    (predict_next_refill 150 (calculate_pattern [0, 28, 60, 88, 120, 150]) 150).confidence
      = 90/100 ∧
    ¬((90/100 : ℚ) = min (95/100) (93/100 + 10/100)) := by
  refine ⟨by rw [pattern_c3], by rw [pattern_c3], ?_, by norm_num [min_def]⟩
  rw [pattern_c3]
  simp only [predict_next_refill]
  rw [if_neg (by norm_num), if_pos (by norm_num)]
  rw [show min (9/10 : ℚ) (93/100 + 1/20) = 9/10 from min_eq_left (by norm_num)]
  rw [pyround_eval_lo (9/10 : ℚ) 2 90 (by norm_num) (by norm_num)]
  norm_num

/-- C3 (amended): for every profile with at least 3 fills, the
prediction's confidence equals the consistency score boosted by
+0.10 capped at 0.95 when the profile has 10 or more fills, boosted
by +0.05 capped at 0.90 when it has 6 to 9 fills, and equals the
consistency score unchanged below 6 fills (the consistency score is
a 2-decimal value, as `_calculate_pattern` produces). -/
theorem c3_amended_confidence (last analysis : ℤ) (pat : RefillPattern)
    (hfills : 3 ≤ pat.total_refills)
    (hround : pat.consistency_score = pyround pat.consistency_score 2) :
    (10 ≤ pat.total_refills →
      (predict_next_refill last pat analysis).confidence =
        min (95/100) (pat.consistency_score + 10/100)) ∧
    (6 ≤ pat.total_refills → pat.total_refills < 10 →
      (predict_next_refill last pat analysis).confidence =
        min (90/100) (pat.consistency_score + 5/100)) ∧
    (pat.total_refills < 6 →
      (predict_next_refill last pat analysis).confidence = pat.consistency_score) := by
  obtain ⟨m, hm⟩ : ∃ m : ℤ, pat.consistency_score = (m : ℚ) / 100 := by
    refine ⟨rnearestEven (pat.consistency_score * 10 ^ 2), hround.trans ?_⟩
    unfold pyround
    norm_num
  refine ⟨?_, ?_, ?_⟩
  · intro h10
    simp only [predict_next_refill]
    rw [if_pos h10, hm]
    rw [show (19/20 : ℚ) = ((95 : ℤ) : ℚ) / 100 by norm_num,
      show ((m : ℚ) / 100 + 1/10) = ((m + 10 : ℤ) : ℚ) / 100 by push_cast; ring,
      min_cent, pyround2_cent, ← min_cent]
    push_cast
    ring_nf
  · intro h6 hlt
    simp only [predict_next_refill]
    rw [if_neg (by omega), if_pos h6, hm]
    rw [show (9/10 : ℚ) = ((90 : ℤ) : ℚ) / 100 by norm_num,
      show ((m : ℚ) / 100 + 1/20) = ((m + 5 : ℤ) : ℚ) / 100 by push_cast; ring,
      min_cent, pyround2_cent, ← min_cent]
    push_cast
    ring_nf
  · intro hlt
    simp only [predict_next_refill]
    rw [if_neg (by omega), if_neg (by omega), ← hround]

/-- C3: witness for the amended theorem at the six-fill history
pattern (consistency 0.93, 6 fills). -/
theorem c3_witness :
    (predict_next_refill 150
      { average_interval_days := 30, std_deviation_days := 2,
        total_refills := 6, consistency_score := 93/100 } 150).confidence =
      min (90/100) (93/100 + 5/100) :=
  (c3_amended_confidence 150 150
    { average_interval_days := 30, std_deviation_days := 2,
      total_refills := 6, consistency_score := 93/100 }
    (by norm_num)
    (by have h := pyround2_cent 93; norm_num at h ⊢; exact h.symm)).2.1
    (by norm_num) (by norm_num)

/- ----------------------------------------------------------------
Claim C4
---------------------------------------------------------------- -/

/-- C4: counterexample. For the history with fills on days 0, 30,
60, 90 analysed on day 150 (an overdue patient), the expected date
is day 120 but the clipped earliest bound is day 150, so
`earliest_date ≤ expected_date` fails. -/
theorem c4_counterexample :
    (predict_next_refill 90 (calculate_pattern [0, 30, 60, 90]) 150).expected_date = 120 ∧
    (predict_next_refill 90 (calculate_pattern [0, 30, 60, 90]) 150).earliest_date = 150 ∧
    ¬((predict_next_refill 90 (calculate_pattern [0, 30, 60, 90]) 150).earliest_date ≤
      (predict_next_refill 90 (calculate_pattern [0, 30, 60, 90]) 150).expected_date) := by
  rw [pattern_c4]
  simp only [predict_next_refill]
  rw [show pytrunc (2 * (1 : ℚ)) = 2 from
    pytrunc_eval _ 2 (by norm_num) (by norm_num) (by norm_num)]
  rw [show pytrunc (30 : ℚ) = 30 from
    pytrunc_eval _ 30 (by norm_num) (by norm_num) (by norm_num)]
  rw [show pytrunc ((30 : ℚ) - ((2 : ℤ) : ℚ)) = 28 from
    pytrunc_eval _ 28 (by norm_num) (by norm_num) (by norm_num)]
  norm_num

/-- C4 (amended): every produced prediction satisfies
`expected_date ≤ latest_date` and `analysis_date ≤ earliest_date`;
the inequality `earliest_date ≤ expected_date` holds whenever the
expected date is not before the analysis date, but fails for overdue
patients because the earliest bound is clipped up to the analysis
date. -/
theorem c4_amended_bounds (last analysis : ℤ) (pat : RefillPattern)
    (hstd : 0 ≤ pat.std_deviation_days) :
    (predict_next_refill last pat analysis).expected_date ≤
      (predict_next_refill last pat analysis).latest_date ∧
    analysis ≤ (predict_next_refill last pat analysis).earliest_date ∧
    (analysis ≤ (predict_next_refill last pat analysis).expected_date →
      (predict_next_refill last pat analysis).earliest_date ≤
        (predict_next_refill last pat analysis).expected_date) := by
  simp only [predict_next_refill]
  have hmargin : 0 ≤ pytrunc (2 * pat.std_deviation_days) :=
    pytrunc_nonneg (by linarith)
  have hmq : (0 : ℚ) ≤ (pytrunc (2 * pat.std_deviation_days) : ℚ) := by exact_mod_cast hmargin
  refine ⟨?_, ?_, ?_⟩
  · exact add_le_add_left (pytrunc_mono (by linarith)) last
  · by_cases h : last + pytrunc (pat.average_interval_days -
        (pytrunc (2 * pat.std_deviation_days) : ℚ)) < analysis
    · rw [if_pos h]
    · rw [if_neg h]
      exact le_of_not_lt h
  · intro hexp
    by_cases h : last + pytrunc (pat.average_interval_days -
        (pytrunc (2 * pat.std_deviation_days) : ℚ)) < analysis
    · rw [if_pos h]
      exact hexp
    · rw [if_neg h]
      exact add_le_add_left (pytrunc_mono (by linarith)) last

/-- C4: witness for the amended theorem at the 0/30/60/90 pattern,
analysed on day 100. -/
theorem c4_witness :
    (predict_next_refill 90
      { average_interval_days := 30, std_deviation_days := 1,
        total_refills := 4, consistency_score := 97/100 } 100).expected_date ≤
      (predict_next_refill 90
        { average_interval_days := 30, std_deviation_days := 1,
          total_refills := 4, consistency_score := 97/100 } 100).latest_date ∧
    (100 : ℤ) ≤ (predict_next_refill 90
      { average_interval_days := 30, std_deviation_days := 1,
        total_refills := 4, consistency_score := 97/100 } 100).earliest_date ∧
    ((100 : ℤ) ≤ (predict_next_refill 90
        { average_interval_days := 30, std_deviation_days := 1,
          total_refills := 4, consistency_score := 97/100 } 100).expected_date →
      (predict_next_refill 90
        { average_interval_days := 30, std_deviation_days := 1,
          total_refills := 4, consistency_score := 97/100 } 100).earliest_date ≤
        (predict_next_refill 90
          { average_interval_days := 30, std_deviation_days := 1,
            total_refills := 4, consistency_score := 97/100 } 100).expected_date) :=
  c4_amended_bounds 90 100
    { average_interval_days := 30, std_deviation_days := 1,
      total_refills := 4, consistency_score := 97/100 } (by norm_num)

/- ----------------------------------------------------------------
Claim C7
---------------------------------------------------------------- -/

/-- C7: counterexample. For the fills on days 0, 30, 61, 89 the
predicted expected date is day 118 (last fill plus the truncated
rounded average interval, `int(29.7) = 29`), not day 119. -/
theorem c7_counterexample :
    (predict_next_refill 89 (calculate_pattern [0, 30, 61, 89]) 89).expected_date = 118 ∧
    ((predict_next_refill 89 (calculate_pattern [0, 30, 61, 89]) 89).expected_date ≠ 119) := by
  rw [pattern_c7, predict_c7]
  norm_num

/-- C7 (amended): for the fills on days 0, 30, 61, 89 (intervals
30, 31, 28, std ≈ 1.5) and any analysis date at or after day 89, the
pair classifies `highly_regular` and the prediction expects day 118
(last fill + int(29.7) = 89 + 29) with confidence 0.95 ≥ 0.85. -/
theorem c7_scenario (analysis : ℤ) (h : 89 ≤ analysis) :
    classify_behavior 3 7 (calculate_pattern [0, 30, 61, 89]) 4 =
      BehaviorType.highly_regular ∧
    (predict_next_refill 89 (calculate_pattern [0, 30, 61, 89]) analysis).expected_date
      = 118 ∧
    (predict_next_refill 89 (calculate_pattern [0, 30, 61, 89]) analysis).confidence
      = 19/20 ∧
    (85/100 : ℚ) ≤
      (predict_next_refill 89 (calculate_pattern [0, 30, 61, 89]) analysis).confidence := by
  rw [pattern_c7, predict_c7]
  refine ⟨?_, rfl, rfl, by norm_num⟩
  unfold classify_behavior
  norm_num

/-- C7: witness for the scenario theorem at analysis date 89. -/
theorem c7_witness :
    classify_behavior 3 7 (calculate_pattern [0, 30, 61, 89]) 4 =
      BehaviorType.highly_regular ∧
    (predict_next_refill 89 (calculate_pattern [0, 30, 61, 89]) 89).expected_date = 118 ∧
    (predict_next_refill 89 (calculate_pattern [0, 30, 61, 89]) 89).confidence = 19/20 ∧
    (85/100 : ℚ) ≤
      (predict_next_refill 89 (calculate_pattern [0, 30, 61, 89]) 89).confidence :=
  c7_scenario 89 (by norm_num)

/- ----------------------------------------------------------------
Structure of emitted order recommendations
---------------------------------------------------------------- -/

theorem qdiv_ok_inv {a b q : ℚ} (h : qdiv a b = .ok q) : b ≠ 0 ∧ q = a / b := by
  unfold qdiv at h
  by_cases hb : b = 0
  · rw [if_pos hb] at h
    exact absurd h (by simp)
  · rw [if_neg hb] at h
    injection h with h
    exact ⟨hb, h.symm⟩

theorem le_ceil_div_mul {a b : ℤ} (hb : 0 < b) : a ≤ ⌈(a : ℚ) / (b : ℚ)⌉ * b := by
  have hbq : (0 : ℚ) < (b : ℚ) := by exact_mod_cast hb
  have h1 : (a : ℚ) / (b : ℚ) ≤ (⌈(a : ℚ) / (b : ℚ)⌉ : ℚ) := Int.le_ceil _
  have h2 : (a : ℚ) ≤ (⌈(a : ℚ) / (b : ℚ)⌉ : ℚ) * (b : ℚ) := by
    rw [div_le_iff hbq] at h1
    exact h1
  exact_mod_cast h2

/-- Every successfully built recommendation carries
`recommended_cases = ceil(order_quantity1 / case_size)` and an order
quantity that is either the case-rounded `cases * case_size` (when
rounding applies) or `order_quantity1` itself. -/
theorem buildRecommendationCore_fields (cfg : OptimizationConfig)
    (inv : MedicationInventory) (fd daily : ℚ) (safety reorder : ℤ) (dos : ℚ)
    (oq1 : ℤ) (rec : OrderRecommendation)
    (h : buildRecommendationCore cfg inv fd daily safety reorder dos oq1 = .ok rec) :
    rec.recommended_cases = ⌈(oq1 : ℚ) / (inv.case_size : ℚ)⌉ ∧
    rec.recommended_order_quantity =
      (if cfg.round_to_case_size ∧ 1 < inv.case_size then
        rec.recommended_cases * inv.case_size
      else oq1) := by
  unfold buildRecommendationCore at h
  cases h1 : qdiv (oq1 : ℚ) (inv.case_size : ℚ) with
  | error e => rw [h1] at h; exact Except.noConfusion h
  | ok q =>
    rw [h1] at h
    dsimp only at h
    obtain ⟨-, hq⟩ := qdiv_ok_inv h1
    cases h2 : qdiv dos (cfg.high_priority_threshold_days : ℚ) with
    | error e => rw [h2] at h; exact Except.noConfusion h
    | ok u =>
      rw [h2] at h
      dsimp only at h
      cases h3 : qdiv (inv.current_quantity : ℚ) (reorder : ℚ) with
      | error e => rw [h3] at h; exact Except.noConfusion h
      | ok s =>
        rw [h3] at h
        dsimp only at h
        cases h4 : qdiv ((inv.current_quantity : ℚ) +
            ((if cfg.round_to_case_size ∧ 1 < inv.case_size then
                ⌈q⌉ * inv.case_size else oq1) : ℤ) -
            (fd + (safety : ℚ))) (fd + (safety : ℚ)) with
        | error e => rw [h4] at h; exact Except.noConfusion h
        | ok o =>
          rw [h4] at h
          dsimp only at h
          injection h with h
          subst h
          subst hq
          exact ⟨rfl, rfl⟩

/-- A `some` result of `_optimize_medication` comes from a successful
`buildRecommendation` at the computed intermediate quantities. -/
theorem optimize_ok_some (cfg : OptimizationConfig) (inv : MedicationInventory)
    (fd : ℚ) (horizon : ℤ) (rec : OrderRecommendation)
    (h : optimize_medication cfg inv fd horizon = .ok (some rec)) :
    ∃ oq1 : ℤ, cfg.min_order_quantity ≤ oq1 ∧
      buildRecommendationCore cfg inv fd (fd / (horizon : ℚ))
        (pytrunc (fd / (horizon : ℚ) * (cfg.safety_stock_days : ℚ)))
        (pytrunc (fd / (horizon : ℚ) * (inv.lead_time_days : ℚ) +
          (pytrunc (fd / (horizon : ℚ) * (cfg.safety_stock_days : ℚ)) : ℚ)))
        (daysOfSupplyOf inv.current_quantity (fd / (horizon : ℚ))) oq1 = .ok rec := by
  unfold optimize_medication at h
  cases h0 : qdiv fd (horizon : ℚ) with
  | error e => rw [h0] at h; exact Except.noConfusion h
  | ok daily =>
    rw [h0] at h
    dsimp only at h
    obtain ⟨-, hd⟩ := qdiv_ok_inv h0
    subst hd
    by_cases hc : inv.current_quantity ≤
        pytrunc (fd / (horizon : ℚ) * (inv.lead_time_days : ℚ) +
          (pytrunc (fd / (horizon : ℚ) * (cfg.safety_stock_days : ℚ)) : ℚ)) ∨
        daysOfSupplyOf inv.current_quantity (fd / (horizon : ℚ)) <
          (cfg.high_priority_threshold_days : ℚ)
    · rw [if_pos hc] at h
      unfold buildRecommendation at h
      cases hb : buildRecommendationCore cfg inv fd (fd / (horizon : ℚ))
          (pytrunc (fd / (horizon : ℚ) * (cfg.safety_stock_days : ℚ)))
          (pytrunc (fd / (horizon : ℚ) * (inv.lead_time_days : ℚ) +
            (pytrunc (fd / (horizon : ℚ) * (cfg.safety_stock_days : ℚ)) : ℚ)))
          (daysOfSupplyOf inv.current_quantity (fd / (horizon : ℚ)))
          (max (if cfg.use_eoq then
              if 0 < inv.unit_cost * cfg.carrying_cost_rate then
                pytrunc (qsqrt (2 * (fd / (horizon : ℚ) * 365) * cfg.order_fixed_cost /
                  (inv.unit_cost * cfg.carrying_cost_rate)))
              else pytrunc fd
            else
              pytrunc (fd + ((pytrunc (fd / (horizon : ℚ) * (cfg.safety_stock_days : ℚ))) : ℚ)
                - (inv.current_quantity : ℚ)))
            cfg.min_order_quantity) with
    | error e =>
        rw [hb] at h
        exact Except.noConfusion h
    | ok rec' =>
        rw [hb] at h
        injection h with h
        injection h with h
        subst h
        exact ⟨_, le_max_right _ _, hb⟩
    · rw [if_neg hc] at h
      injection h with h
      exact Option.noConfusion h

theorem qceil_eval (q : ℚ) (z : ℤ) (h1 : (z : ℚ) - 1 < q) (h2 : q ≤ (z : ℚ)) : ⌈q⌉ = z :=
  Int.ceil_eq_iff.mpr ⟨h1, h2⟩

theorem except_map_some_ok {α : Type} {e : Except Unit α} {r : Option α}
    (h : Except.map some e = .ok r) : r.isSome = true := by
  cases e with
  | error e' => simp [Except.map] at h
  | ok a =>
    simp only [Except.map] at h
    injection h with h
    rw [← h]
    rfl

/-- Concrete run of `_optimize_medication`: the zero-cost medication
triggers the EOQ holding-cost fallback, the quantity is floored at
the minimum 1 is irrelevant (500), and case rounding to cases of 12
yields 42 cases = 504 units with critical priority. -/
theorem optimize_example :
    optimize_medication defaultConfig exampleInventory 500 10 = .ok (some exampleRec) := by
  unfold optimize_medication exampleInventory
  rw [qdiv_ok 500 ((10 : ℤ) : ℚ) (by norm_num)]
  dsimp only
  norm_num [defaultConfig, daysOfSupplyOf]
  rw [show pytrunc (350 : ℚ) = 350 from
    pytrunc_eval _ 350 (by norm_num) (by norm_num) (by norm_num)]
  norm_num
  rw [show pytrunc (700 : ℚ) = 700 from
    pytrunc_eval _ 700 (by norm_num) (by norm_num) (by norm_num)]
  norm_num
  unfold buildRecommendation buildRecommendationCore
  norm_num
  rw [show pytrunc (500 : ℚ) = 500 from
    pytrunc_eval _ 500 (by norm_num) (by norm_num) (by norm_num)]
  norm_num [qdiv, Except.map, exampleRec]
  rw [show ⌈(125 : ℚ)/3⌉ = 42 from qceil_eval _ 42 (by norm_num) (by norm_num)]
  norm_num

/- ----------------------------------------------------------------
Claim C1
---------------------------------------------------------------- -/

/-- C1: for every medication reaching `_optimize_medication` with a
well-formed input (nonnegative demand, positive horizon, nonnegative
lead time and safety-stock days) on which no division error occurs,
an `OrderRecommendation` is emitted (`some`) if and only if
`current_quantity ≤ reorder_point` (`daily_demand × lead_time_days +
safety_stock`) or `days_of_supply < high_priority_threshold_days`,
with days-of-supply using the 999 sentinel at zero daily demand;
otherwise the result is `none` — no record at all. -/
theorem c1_emission_iff (cfg : OptimizationConfig) (inv : MedicationInventory)
    (fd : ℚ) (horizon : ℤ) (r : Option OrderRecommendation)
    (hfd : 0 ≤ fd) (hh : 0 < horizon) (hlead : 0 ≤ inv.lead_time_days)
    (hssd : 0 ≤ cfg.safety_stock_days)
    (hres : optimize_medication cfg inv fd horizon = .ok r) :
    r.isSome = true ↔
      ((inv.current_quantity : ℚ) ≤
          fd / (horizon : ℚ) * (inv.lead_time_days : ℚ) +
            (pytrunc (fd / (horizon : ℚ) * (cfg.safety_stock_days : ℚ)) : ℚ) ∨
        daysOfSupplyOf inv.current_quantity (fd / (horizon : ℚ)) <
          (cfg.high_priority_threshold_days : ℚ)) := by
  have hhq : (0 : ℚ) < (horizon : ℚ) := by exact_mod_cast hh
  have hdaily : 0 ≤ fd / (horizon : ℚ) := div_nonneg hfd hhq.le
  have harg : 0 ≤ fd / (horizon : ℚ) * (inv.lead_time_days : ℚ) +
      (pytrunc (fd / (horizon : ℚ) * (cfg.safety_stock_days : ℚ)) : ℚ) := by
    have h1 : (0 : ℚ) ≤ fd / (horizon : ℚ) * (inv.lead_time_days : ℚ) :=
      mul_nonneg hdaily (by exact_mod_cast hlead)
    have h2 : (0 : ℚ) ≤ (pytrunc (fd / (horizon : ℚ) * (cfg.safety_stock_days : ℚ)) : ℚ) := by
      exact_mod_cast pytrunc_nonneg (mul_nonneg hdaily (by exact_mod_cast hssd))
    linarith
  have hbridge := le_pytrunc_iff (z := inv.current_quantity) harg
  unfold optimize_medication at hres
  rw [qdiv_ok fd (horizon : ℚ) (ne_of_gt hhq)] at hres
  dsimp only at hres
  by_cases hc : inv.current_quantity ≤
      pytrunc (fd / (horizon : ℚ) * (inv.lead_time_days : ℚ) +
        (pytrunc (fd / (horizon : ℚ) * (cfg.safety_stock_days : ℚ)) : ℚ)) ∨
      daysOfSupplyOf inv.current_quantity (fd / (horizon : ℚ)) <
        (cfg.high_priority_threshold_days : ℚ)
  · rw [if_pos hc] at hres
    have hsome := except_map_some_ok hres
    rw [hsome]
    simp only [true_iff]
    rcases hc with hc | hc
    · exact Or.inl (hbridge.mp hc)
    · exact Or.inr hc
  · rw [if_neg hc] at hres
    injection hres with h2
    subst h2
    simp only [Option.isSome_none, Bool.false_eq_true, false_iff]
    intro hcl
    apply hc
    rcases hcl with hcl | hcl
    · exact Or.inl (hbridge.mpr hcl)
    · exact Or.inr hcl

/-- C1: witness — the example run emits a recommendation and its
trigger condition holds. -/
theorem c1_witness :
    (some exampleRec).isSome = true ↔
      ((exampleInventory.current_quantity : ℚ) ≤
          500 / ((10 : ℤ) : ℚ) * (exampleInventory.lead_time_days : ℚ) +
            (pytrunc (500 / ((10 : ℤ) : ℚ) * (defaultConfig.safety_stock_days : ℚ)) : ℚ) ∨
        daysOfSupplyOf exampleInventory.current_quantity (500 / ((10 : ℤ) : ℚ)) <
          (defaultConfig.high_priority_threshold_days : ℚ)) :=
  c1_emission_iff defaultConfig exampleInventory 500 10 (some exampleRec)
    (by norm_num) (by norm_num) (by norm_num [exampleInventory])
    (by norm_num [defaultConfig]) optimize_example

/- ----------------------------------------------------------------
Claim C2
---------------------------------------------------------------- -/

/-- C2: the code violates the no-uncaught-arithmetic-exception
property. With 1 unit of forecast demand over 30 days and zero stock
(daily demand 1/30, so `reorder_point = int(7/30) = 0`), the order
branch is entered and `stockout_risk`'s division
`current_quantity / reorder_point` is a Python `ZeroDivisionError`:
the embedded `_optimize_medication` evaluates to an error, not to a
result.  (The days-of-supply sentinel and the zero-holding-cost EOQ
fallback of the claim do hold on this very input — the crash happens
after both.) -/
theorem c2_zero_division_crash :
    optimize_medication defaultConfig
      { current_quantity := 0, units_expiring_soon := 0, unit_cost := 0,
        case_size := 1, lead_time_days := 7 } 1 30 = .error () := by
  unfold optimize_medication
  rw [qdiv_ok 1 ((30 : ℤ) : ℚ) (by norm_num)]
  dsimp only
  norm_num [defaultConfig, daysOfSupplyOf]
  rw [show pytrunc ((7 : ℚ)/30) = 0 from
    pytrunc_eval _ 0 (by norm_num) (by norm_num) (by norm_num)]
  norm_num
  rw [show pytrunc ((7 : ℚ)/30) = 0 from
    pytrunc_eval _ 0 (by norm_num) (by norm_num) (by norm_num)]
  unfold buildRecommendation buildRecommendationCore
  norm_num
  rw [show pytrunc (1 : ℚ) = 1 from
    pytrunc_eval _ 1 (by norm_num) (by norm_num) (by norm_num)]
  norm_num [qdiv, Except.map]

/- ----------------------------------------------------------------
Claim C6
---------------------------------------------------------------- -/

/-- C6: whenever case rounding is enabled and `case_size > 1`, every
emitted recommendation's order quantity is an exact multiple of the
case size, and `recommended_cases × case_size =
recommended_order_quantity` (the quantity having been floored at the
minimum order quantity and rounded up to a whole number of cases). -/
theorem c6_case_rounding (cfg : OptimizationConfig) (inv : MedicationInventory)
    (fd : ℚ) (horizon : ℤ) (rec : OrderRecommendation)
    (hround : cfg.round_to_case_size = true) (hcs : 1 < inv.case_size)
    (hres : optimize_medication cfg inv fd horizon = .ok (some rec)) :
    rec.recommended_order_quantity % inv.case_size = 0 ∧
    rec.recommended_cases * inv.case_size = rec.recommended_order_quantity := by
  obtain ⟨oq1, hmin, hbuild⟩ := optimize_ok_some cfg inv fd horizon rec hres
  obtain ⟨hcases, hoq⟩ := buildRecommendationCore_fields _ _ _ _ _ _ _ _ _ hbuild
  rw [if_pos ⟨hround, hcs⟩] at hoq
  exact ⟨by rw [hoq]; exact Int.mul_emod_left _ _, hoq.symm⟩

/-- C6: witness — the example run (cases of 12) emits 42 cases =
504 units. -/
theorem c6_witness :
    exampleRec.recommended_order_quantity % exampleInventory.case_size = 0 ∧
    exampleRec.recommended_cases * exampleInventory.case_size =
      exampleRec.recommended_order_quantity :=
  c6_case_rounding defaultConfig exampleInventory 500 10 exampleRec
    rfl (by norm_num [exampleInventory]) optimize_example

/- ----------------------------------------------------------------
Claim C10
---------------------------------------------------------------- -/

/-- C10: every emitted recommendation orders at least the configured
minimum order quantity — under the default configuration at least 1
unit — even when the EOQ / fallback quantity is zero or negative,
because the quantity is floored at the minimum before case rounding
and case rounding only rounds up. -/
theorem c10_min_quantity (cfg : OptimizationConfig) (inv : MedicationInventory)
    (fd : ℚ) (horizon : ℤ) (rec : OrderRecommendation)
    (hres : optimize_medication cfg inv fd horizon = .ok (some rec)) :
    cfg.min_order_quantity ≤ rec.recommended_order_quantity ∧
    (cfg = defaultConfig → 1 ≤ rec.recommended_order_quantity) := by
  obtain ⟨oq1, hmin, hbuild⟩ := optimize_ok_some cfg inv fd horizon rec hres
  obtain ⟨hcases, hoq⟩ := buildRecommendationCore_fields _ _ _ _ _ _ _ _ _ hbuild
  have hmain : cfg.min_order_quantity ≤ rec.recommended_order_quantity := by
    rw [hoq]
    by_cases hcond : cfg.round_to_case_size = true ∧ 1 < inv.case_size
    · rw [if_pos hcond, hcases]
      exact le_trans hmin (le_ceil_div_mul (lt_trans zero_lt_one hcond.2))
    · rw [if_neg hcond]
      exact hmin
  refine ⟨hmain, fun hdef => ?_⟩
  rw [hdef] at hmain
  exact hmain

/-- C10: witness — the example run orders 504 ≥ 1 units. -/
theorem c10_witness :
    defaultConfig.min_order_quantity ≤ exampleRec.recommended_order_quantity ∧
    (defaultConfig = defaultConfig → 1 ≤ exampleRec.recommended_order_quantity) :=
  c10_min_quantity defaultConfig exampleInventory 500 10 exampleRec optimize_example

/- ----------------------------------------------------------------
Claim C5
---------------------------------------------------------------- -/

/-- C5: counterexample. At level 4 with a decreasing trend the
piecewise base times the trend factor is 1.15 × 0.95 = 1.0925, but
the code emits `round(…, 2) = 1.09`, so the multiplier does not
equal the un-rounded product the claim states. -/
theorem c5_counterexample :
    get_demand_multiplier { level := 4, trend := .decreasing } = 109/100 ∧
    specFluBase 4 * specTrendFactor .decreasing = 437/400 ∧
    get_demand_multiplier { level := 4, trend := .decreasing } ≠
      specFluBase 4 * specTrendFactor .decreasing := by
  have h : get_demand_multiplier { level := 4, trend := .decreasing } = 109/100 := by
    unfold get_demand_multiplier trend_adjustment
    norm_num
    rw [pyround_eval_lo (437/400 : ℚ) 2 109 (by norm_num) (by norm_num)]
    norm_num
  refine ⟨h, by unfold specFluBase specTrendFactor; norm_num, ?_⟩
  rw [h, show specFluBase 4 * specTrendFactor .decreasing = 437/400 by
    unfold specFluBase specTrendFactor; norm_num]
  norm_num

/-- C5 (amended): for every flu-activity record (level 1..10), the
antiviral demand multiplier equals the piecewise base times the
trend factor, rounded to two decimals; in particular level 8 with
rapid_increase yields exactly 2.22 (where no rounding occurs). -/
theorem c5_multiplier_formula (f : FluActivity) (h1 : 1 ≤ f.level) (h2 : f.level ≤ 10) :
    get_demand_multiplier f = pyround (specFluBase f.level * specTrendFactor f.trend) 2 := by
  rcases f with ⟨level, trend⟩
  unfold get_demand_multiplier specFluBase specTrendFactor trend_adjustment
  cases trend <;> rfl

/-- C5: witness at the spec's scenario, level 8 with rapid increase:
the formula applies and the emitted multiplier is exactly 2.22. -/
theorem c5_witness :
    get_demand_multiplier { level := 8, trend := .rapid_increase } =
      pyround (specFluBase 8 * specTrendFactor .rapid_increase) 2 ∧
    get_demand_multiplier { level := 8, trend := .rapid_increase } = 222/100 := by
  refine ⟨c5_multiplier_formula ⟨8, .rapid_increase⟩ (by norm_num) (by norm_num), ?_⟩
  unfold get_demand_multiplier trend_adjustment
  norm_num
  rw [pyround_eval_lo (111/50 : ℚ) 2 222 (by norm_num) (by norm_num)]
  norm_num

/- ----------------------------------------------------------------
Claim C9
---------------------------------------------------------------- -/

theorem dget_dset (d : MultDict) (k k' : String) (v dflt : ℚ) :
    dget (dset d k v) k' dflt = if k = k' then v else dget d k' dflt := by
  induction d with
  | nil =>
    simp only [dset, dget]
  | cons hd tl ih =>
    rcases hd with ⟨a, b⟩
    simp only [dset, dget]
    by_cases hak : a = k
    · rw [if_pos hak]
      simp only [dget]
      by_cases hkk' : k = k'
      · rw [if_pos hkk', if_pos hkk']
      · rw [if_neg hkk', if_neg hkk',
          if_neg (fun h : a = k' => hkk' (hak.symm.trans h))]
    · rw [if_neg hak]
      simp only [dget]
      by_cases hak' : a = k'
      · rw [if_pos hak', if_neg (fun h : k = k' => hak (hak'.trans h.symm)), if_pos hak']
      · rw [if_neg hak', ih]
        by_cases hkk' : k = k'
        · rw [if_pos hkk', if_pos hkk']
        · rw [if_neg hkk', if_neg hkk', if_neg hak']

/-- Keys other than the written one are untouched by a weather step,
an event boost, or any sequence of event boosts. -/
theorem applyEventCategories_agree (cats : List String) (d d' : MultDict)
    (h : ∀ k dflt, k ≠ "cold_flu_otc" → dget d k dflt = dget d' k dflt) :
    ∀ k dflt, k ≠ "cold_flu_otc" →
      dget (applyEventCategories cats d) k dflt =
        dget (applyEventCategories cats d') k dflt := by
  induction cats generalizing d d' with
  | nil => exact h
  | cons c rest ih =>
    simp only [applyEventCategories]
    apply ih
    intro k dflt hk
    rw [dget_dset, dget_dset]
    by_cases hck : c = k
    · rw [if_pos hck, if_pos hck, h c 1 (hck ▸ hk)]
    · rw [if_neg hck, if_neg hck]
      exact h k dflt hk

theorem applyEvents_agree (events : List LocalEvent) (d d' : MultDict)
    (h : ∀ k dflt, k ≠ "cold_flu_otc" → dget d k dflt = dget d' k dflt) :
    ∀ k dflt, k ≠ "cold_flu_otc" →
      dget (applyEvents events d) k dflt = dget (applyEvents events d') k dflt := by
  induction events generalizing d d' with
  | nil => exact h
  | cons e rest ih =>
    simp only [applyEvents]
    by_cases himp : e.expected_impact = "early_refills"
    · rw [if_pos himp, if_pos himp]
      exact ih _ _ (applyEventCategories_agree e.affected_categories d d' h)
    · rw [if_neg himp, if_neg himp]
      exact ih _ _ h

/-- The forecaster's category inference always lands in the closed
seven-element set. -/
theorem infer_category_mem (medication : String) :
    infer_category medication ∈
      ["diabetes", "cardiovascular", "antiviral", "antibiotic",
       "gastrointestinal", "thyroid", "other"] := by
  simp only [infer_category]
  split
  · simp
  · split
    · simp
    · split
      · simp
      · split
        · simp
        · split
          · simp
          · split
            · simp
            · simp

/-- C9: the category inference returns one of exactly seven category
strings, and since the weather-derived multiplier is stored only
under the key "cold_flu_otc" — never an inferred category — changing
the weather record (with flu and events fixed) never changes the
multiplier looked up for any medication, hence never changes an
emitted forecast's `external_multiplier`. -/
theorem c9_weather_inert (medication : String) (flu : Option FluActivity)
    (w w' : Option WeatherData) (events : List LocalEvent) :
    infer_category medication ∈
      ["diabetes", "cardiovascular", "antiviral", "antibiotic",
       "gastrointestinal", "thyroid", "other"] ∧
    dget (calculate_external_multipliers
        (some { flu_activity := flu, weather := w, events := events }))
      (infer_category medication) 1 =
    dget (calculate_external_multipliers
        (some { flu_activity := flu, weather := w', events := events }))
      (infer_category medication) 1 := by
  refine ⟨infer_category_mem medication, ?_⟩
  have hne : infer_category medication ≠ "cold_flu_otc" := by
    have hall : ∀ x ∈ (["diabetes", "cardiovascular", "antiviral", "antibiotic",
        "gastrointestinal", "thyroid", "other"] : List String),
        x ≠ "cold_flu_otc" := by decide
    exact hall _ (infer_category_mem medication)
  unfold calculate_external_multipliers
  dsimp only
  apply applyEvents_agree
  · intro k dflt hk
    cases w with
    | none =>
      cases w' with
      | none => rfl
      | some w2 =>
        dsimp only
        by_cases hmem : dmem
            (match flu with
              | none => ([] : MultDict)
              | some flu' =>
                dset (dset [] "antiviral" (get_demand_multiplier flu'))
                  "cold_flu_otc" (get_demand_multiplier flu' * (8/10)))
            "cold_flu_otc" = true
        · rw [if_pos hmem, dget_dset, if_neg (Ne.symm hk)]
        · rw [if_neg hmem, dget_dset, if_neg (Ne.symm hk)]
    | some w1 =>
      cases w' with
      | none =>
        dsimp only
        by_cases hmem : dmem
            (match flu with
              | none => ([] : MultDict)
              | some flu' =>
                dset (dset [] "antiviral" (get_demand_multiplier flu'))
                  "cold_flu_otc" (get_demand_multiplier flu' * (8/10)))
            "cold_flu_otc" = true
        · rw [if_pos hmem, dget_dset, if_neg (Ne.symm hk)]
        · rw [if_neg hmem, dget_dset, if_neg (Ne.symm hk)]
      | some w2 =>
        dsimp only
        by_cases hmem : dmem
            (match flu with
              | none => ([] : MultDict)
              | some flu' =>
                dset (dset [] "antiviral" (get_demand_multiplier flu'))
                  "cold_flu_otc" (get_demand_multiplier flu' * (8/10)))
            "cold_flu_otc" = true
        · rw [if_pos hmem, if_pos hmem, dget_dset, dget_dset,
            if_neg (Ne.symm hk), if_neg (Ne.symm hk)]
        · rw [if_neg hmem, if_neg hmem, dget_dset, dget_dset,
            if_neg (Ne.symm hk), if_neg (Ne.symm hk)]
  · exact hne

/- ----------------------------------------------------------------
Claim C8
---------------------------------------------------------------- -/

theorem qsum_nonneg (l : List ℚ) (h : ∀ x ∈ l, 0 ≤ x) : 0 ≤ qsum l := by
  induction l with
  | nil => simp [qsum]
  | cons a tl ih =>
    have ha := h a (List.mem_cons_self a tl)
    have htl := ih (fun x hx => h x (List.mem_cons_of_mem a hx))
    simp only [qsum, List.foldr_cons] at *
    linarith

theorem qsum_map_mul_right (l : List ℤ) (g : ℤ → ℚ) (m : ℚ) :
    qsum (l.map (fun d => g d * m)) = m * qsum (l.map g) := by
  induction l with
  | nil => simp [qsum]
  | cons a tl ih =>
    simp only [qsum, List.map_cons, List.foldr_cons] at *
    rw [ih]
    ring

theorem le_listMax {x : ℚ} {l : List ℚ} (h : x ∈ l) : x ≤ listMax l := by
  induction l with
  | nil => cases h
  | cons a tl ih =>
    cases tl with
    | nil =>
      rcases List.mem_singleton.mp h with rfl
      exact le_refl _
    | cons b r =>
      rcases List.mem_cons.mp h with rfl | hmem
      · exact le_max_left _ _
      · exact le_trans (ih hmem) (le_max_right _ _)

/-- Each daily predicted demand is the patient-based demand times
the (per-medication constant) external multiplier, so the sums obey
the same relation. -/
theorem totalPredicted_eq (medication : String) (patient_demand : ℤ → ℚ)
    (multipliers : MultDict) (start_date : ℤ) (horizon : ℕ) (spike : ℚ) :
    totalPredicted (forecast_medication medication patient_demand multipliers
        start_date horizon spike) =
      dget multipliers (infer_category medication) 1 *
        totalPatientBased (forecast_medication medication patient_demand multipliers
          start_date horizon spike) := by
  unfold totalPredicted totalPatientBased forecast_medication
  rw [List.map_map, List.map_map]
  exact qsum_map_mul_right (dayRange start_date horizon) patient_demand
    (dget multipliers (infer_category medication) 1)

theorem mem_runForecasts {meds : List (String × (ℤ → ℚ))} {multipliers : MultDict}
    {start_date : ℤ} {horizon : ℕ} {spike : ℚ} {med : String} {dem : ℤ → ℚ}
    (hmem : (med, dem) ∈ meds) {f : MedicationForecast}
    (hf : f ∈ forecast_medication med dem multipliers start_date horizon spike) :
    f ∈ runForecasts meds multipliers start_date horizon spike := by
  unfold runForecasts
  rw [List.mem_flatten]
  exact ⟨forecast_medication med dem multipliers start_date horizon spike,
    List.mem_map_of_mem _ hmem, hf⟩

/-- C8: for every medication of a forecast run with nonnegative
patient-based demand, the sum of `predicted_demand` over all days of
the horizon never exceeds the sum of `patient_based_demand` times
the maximum external multiplier observed in the run (exactly, so
also within any floating-rounding tolerance). -/
theorem c8_demand_bound (meds : List (String × (ℤ → ℚ))) (multipliers : MultDict)
    (start_date : ℤ) (horizon : ℕ) (spike : ℚ) (med : String) (dem : ℤ → ℚ)
    (hmem : (med, dem) ∈ meds) (hpos : ∀ d, 0 ≤ dem d) (hhor : 1 ≤ horizon) :
    totalPredicted (forecast_medication med dem multipliers start_date horizon spike) ≤
      maxMultObserved (runForecasts meds multipliers start_date horizon spike) *
        totalPatientBased
          (forecast_medication med dem multipliers start_date horizon spike) := by
  rw [totalPredicted_eq]
  have hpb : 0 ≤ totalPatientBased
      (forecast_medication med dem multipliers start_date horizon spike) := by
    apply qsum_nonneg
    intro x hx
    rcases List.mem_map.mp hx with ⟨f, hf, rfl⟩
    unfold forecast_medication at hf
    rcases List.mem_map.mp hf with ⟨d, _, rfl⟩
    exact hpos d
  have hm : dget multipliers (infer_category med) 1 ≤
      maxMultObserved (runForecasts meds multipliers start_date horizon spike) := by
    have hd0 : start_date + ((0 : ℕ) : ℤ) ∈ dayRange start_date horizon := by
      unfold dayRange
      exact List.mem_map_of_mem _ (List.mem_range.mpr (show 0 < horizon by omega))
    have hf0 : ∃ f ∈ forecast_medication med dem multipliers start_date horizon spike,
        f.external_multiplier = dget multipliers (infer_category med) 1 := by
      unfold forecast_medication
      exact ⟨_, List.mem_map_of_mem _ hd0, rfl⟩
    rcases hf0 with ⟨f, hf, hfeq⟩
    rw [← hfeq]
    exact le_listMax (List.mem_map_of_mem _ (mem_runForecasts hmem hf))
  exact mul_le_mul_of_nonneg_right hm hpb

/-- C8: witness — a one-medication run (Tamiflu, constant demand 1,
antiviral multiplier 2) over a 2-day horizon. -/
theorem c8_witness :
    totalPredicted (forecast_medication "Tamiflu" (fun _ => 1)
        [("antiviral", 2)] 0 2 (3/2)) ≤
      maxMultObserved (runForecasts [("Tamiflu", fun _ => 1)]
          [("antiviral", 2)] 0 2 (3/2)) *
        totalPatientBased (forecast_medication "Tamiflu" (fun _ => 1)
          [("antiviral", 2)] 0 2 (3/2)) :=
  c8_demand_bound [("Tamiflu", fun _ => 1)] [("antiviral", 2)] 0 2 (3/2)
    "Tamiflu" (fun _ => 1) (List.mem_singleton.mpr rfl)
    (fun _ => by norm_num) (by norm_num)

end Apothecary
